import Mathlib

/-
Shallow embedding of the Aura LLM platform's persona-aware response pipeline
(src/bot_prompts.py and src/gemma_handler.py).

Modelling conventions:
  * Python strings are Lean `String`s; `str.strip()` is `pyStrip`,
    `str.lower()` is `pyLower`, `"sub" in s` is `strContains s sub`
    (list-based so the kernel can evaluate them).
  * Python `str.title()` and `str.capitalize()` are modelled by `pyTitle` and
    `pyCapitalize` (capitalize first letters / first letter, lowercase the rest).
  * The sampling parameters (temperature, top_p) are exact decimal constants in
    the source, compared but never arithmetically combined; they are embedded
    as natural numbers in hundredths (0.8 becomes 80) to stay off floats.
  * The transformer backend is opaque: the engine adapter `generate_response`
    is parametrised by the backend outcome (a decoded string or a raised
    exception), and the orchestrators `chat_response` / `generate_text` are
    parametrised by the engine as a function from the generation request to an
    optional string (`none` is the failure marker `None`).
-/

namespace AuraLLM

/-- Substring test on character lists: Python's `sub in s` on the list level. -/
def listContainsSub (sub : List Char) : List Char → Bool
  | [] => sub.isEmpty
  | c :: t => sub.isPrefixOf (c :: t) || listContainsSub sub t

/-- Python's containment test `sub in s` for strings. -/
def strContains (s sub : String) : Bool :=
  listContainsSub sub.data s.data

/-- Python's `str.lower()` (over the ASCII range the source uses). -/
def pyLower (s : String) : String :=
  ⟨s.data.map Char.toLower⟩

/-- Python's `str.strip()`: drop whitespace from both ends. -/
def pyStrip (s : String) : String :=
  ⟨((s.data.dropWhile Char.isWhitespace).reverse.dropWhile Char.isWhitespace).reverse⟩

/-- Helper for `pyTitle`: the Bool tracks whether the previous character was
alphabetic. -/
def pyTitleGo : Bool → List Char → List Char
  | _, [] => []
  | prevAlpha, c :: cs =>
    (if c.isAlpha then (if prevAlpha then c.toLower else c.toUpper) else c)
      :: pyTitleGo c.isAlpha cs

/-- Python's `str.title()`: uppercase each letter that starts a word, lowercase
the rest. -/
def pyTitle (s : String) : String :=
  ⟨pyTitleGo false s.data⟩

/-- Python's `str.capitalize()`: uppercase the first character, lowercase the
rest. -/
def pyCapitalize (s : String) : String :=
  match s.data with
  | [] => ""
  | c :: cs => ⟨c.toUpper :: cs.map Char.toLower⟩

/-- Python's `l[-n:]`: the last `n` elements of a list (all of them when the
list is shorter). -/
def lastN (n : Nat) (l : List α) : List α :=
  l.drop (l.length - n)

/-! ## bot_prompts.py: the persona / culture / style registries -/

/-- An entry of the `PERSONAS` dictionary of src/bot_prompts.py. -/
structure PersonaDef where
  name : String
  description : String
  traits : List String
deriving DecidableEq

/-- An entry of the `CULTURES` dictionary of src/bot_prompts.py. -/
structure CultureDef where
  name : String
  characteristics : List String
  greetings : List String
  cultural_elements : List String
deriving DecidableEq

/-- The `PERSONAS` dictionary of src/bot_prompts.py, in insertion order. -/
def PERSONAS : List (String × PersonaDef) := [
  ("friend",
    { name := "Friendly Companion",
      description := "A warm, supportive, and encouraging friend who listens and offers advice",
      traits := ["supportive", "empathetic", "encouraging", "fun-loving", "trustworthy"] }),
  ("mentor",
    { name := "Wise Mentor",
      description := "An experienced guide who provides wisdom, guidance, and constructive feedback",
      traits := ["wise", "patient", "insightful", "experienced", "nurturing"] }),
  ("romantic",
    { name := "Romantic Partner",
      description := "A loving, affectionate, and caring romantic companion",
      traits := ["affectionate", "caring", "romantic", "understanding", "devoted"] }),
  ("professional",
    { name := "Professional Colleague",
      description := "A competent, reliable, and collaborative professional partner",
      traits := ["professional", "competent", "reliable", "collaborative", "goal-oriented"] }),
  ("therapist",
    { name := "Supportive Therapist",
      description := "A compassionate listener who helps process emotions and thoughts",
      traits := ["compassionate", "non-judgmental", "insightful", "calming", "professional"] })]

/-- The `CULTURES` dictionary of src/bot_prompts.py, in insertion order. -/
def CULTURES : List (String × CultureDef) := [
  ("delhi",
    { name := "Delhi (Indian)",
      characteristics := [
        "Warm hospitality and respect for relationships",
        "Use of occasional Hindi/Urdu phrases naturally",
        "References to Indian culture, festivals, and traditions",
        "Family-oriented values and respect for elders",
        "Appreciation for diverse perspectives and harmony"],
      greetings := ["Namaste", "Sat Sri Akal", "Adaab", "Hello ji"],
      cultural_elements := ["family values", "festivals", "food", "traditions", "spirituality"] }),
  ("japanese",
    { name := "Japanese",
      characteristics := [
        "Politeness, respect, and attention to harmony",
        "Subtle communication and reading between the lines",
        "Appreciation for beauty, nature, and mindfulness",
        "Value for hard work, dedication, and continuous improvement",
        "Seasonal awareness and cultural traditions"],
      greetings := ["Konnichiwa", "Ohayo gozaimasu", "Hello"],
      cultural_elements := ["seasons", "nature", "traditions", "mindfulness", "respect"] }),
  ("parisian",
    { name := "Parisian (French)",
      characteristics := [
        "Sophisticated, cultured, and intellectually curious",
        "Appreciation for art, literature, and fine living",
        "Direct but elegant communication style",
        "Value for philosophy, debate, and intellectual discourse",
        "Romantic and passionate about life"],
      greetings := ["Bonjour", "Bonsoir", "Salut", "Hello"],
      cultural_elements := ["art", "cuisine", "philosophy", "fashion", "romance"] }),
  ("berlin",
    { name := "Berlin (German)",
      characteristics := [
        "Direct, honest, and straightforward communication",
        "Value for efficiency, punctuality, and quality",
        "Creative, alternative, and open-minded thinking",
        "Appreciation for history, progress, and innovation",
        "Balance between work and personal life"],
      greetings := ["Guten Tag", "Hallo", "Moin", "Hello"],
      cultural_elements := ["history", "innovation", "efficiency", "creativity", "directness"] })]

/-- Python's `PERSONAS[key]` access guarded by `key in PERSONAS`. -/
def lookupPersona (key : String) : Option PersonaDef :=
  (PERSONAS.find? (fun p => p.1 == key)).map Prod.snd

/-- Python's `CULTURES[key]` access guarded by `key in CULTURES`. -/
def lookupCulture (key : String) : Option CultureDef :=
  (CULTURES.find? (fun p => p.1 == key)).map Prod.snd

/-- The persona-specific instruction block appended by the `if`/`elif` chain of
`get_persona_prompt` (src/bot_prompts.py lines 131-164); the empty string for a
key outside the chain (unreachable after the default substitution). -/
def personaInstructions (persona : String) : String :=
  if persona == "friend" then
    "- Be warm, encouraging, and supportive\n- Share in celebrations and provide comfort during difficulties\n- Offer advice when asked, but also just listen when needed\n- Use casual, friendly language with occasional cultural expressions\n- Show genuine interest in the user's life and experiences"
  else if persona == "mentor" then
    "- Provide wise guidance and constructive feedback\n- Ask thoughtful questions to help the user reflect\n- Share relevant experiences and insights\n- Encourage growth and learning\n- Be patient and understanding while maintaining high standards"
  else if persona == "romantic" then
    "- Be affectionate, caring, and emotionally supportive\n- Express love and appreciation genuinely\n- Be attentive to emotional needs and feelings\n- Create a sense of intimacy and connection\n- Use warm, loving language appropriate to the cultural context"
  else if persona == "professional" then
    "- Maintain professionalism while being approachable\n- Focus on goals, solutions, and productive outcomes\n- Offer expertise and practical advice\n- Be reliable and trustworthy in all interactions\n- Balance efficiency with personal connection"
  else if persona == "therapist" then
    "- Listen actively and without judgment\n- Help the user explore their thoughts and feelings\n- Ask open-ended questions to facilitate self-discovery\n- Provide emotional support and validation\n- Maintain professional boundaries while being compassionate"
  else ""

/-- The prompt body of `get_persona_prompt` given the resolved key and the two
registry records (the f-string of src/bot_prompts.py lines 111-168). -/
def personaPromptBody (persona : String) (persona_info : PersonaDef)
    (culture_info : CultureDef) : String :=
  "You are a " ++ persona_info.name ++ " with a " ++ culture_info.name
    ++ " cultural background.\n\nPERSONALITY TRAITS:\n"
    ++ pyTitle (String.intercalate ", " persona_info.traits)
    ++ "\n\nCULTURAL BACKGROUND:\nYou embody the following " ++ culture_info.name
    ++ " characteristics:\n"
    ++ String.intercalate "\n" (culture_info.characteristics.map (fun c => "- " ++ c))
    ++ "\n\nCOMMUNICATION STYLE:\n- Be " ++ pyLower persona_info.description
    ++ "\n- Naturally incorporate cultural elements: "
    ++ String.intercalate ", " culture_info.cultural_elements
    ++ "\n- Use appropriate greetings when suitable: "
    ++ String.intercalate ", " culture_info.greetings
    ++ "\n- Maintain authenticity without stereotyping\n- Be conversational and engaging\n\nSPECIFIC INSTRUCTIONS:\n"
    ++ personaInstructions persona
    ++ "\n\nRemember: You are having a natural conversation. Don't announce your role or cultural background unless it comes up naturally. Let your personality and cultural awareness show through your responses, word choices, and perspectives. Be authentic, helpful, and engaging while staying true to your "
    ++ persona_info.name ++ " nature and " ++ culture_info.name
    ++ " cultural background."

/-- The function `get_persona_prompt` of src/bot_prompts.py: substitute the
defaults "friend" / "delhi" for unknown keys, then build the prompt from the
registry records (the `getD` defaults are unreachable: after substitution the
key is always registered). -/
def get_persona_prompt (persona culture : String) : String :=
  let persona := if (lookupPersona persona).isSome then persona else "friend"
  let culture := if (lookupCulture culture).isSome then culture else "delhi"
  let persona_info := (lookupPersona persona).getD
    { name := "", description := "", traits := [] }
  let culture_info := (lookupCulture culture).getD
    { name := "", characteristics := [], greetings := [], cultural_elements := [] }
  personaPromptBody persona persona_info culture_info

/-- An element of the list built by `get_persona_culture_combinations`
(src/bot_prompts.py lines 180-192). -/
structure PersonaCombination where
  persona : String
  culture : String
  persona_name : String
  culture_name : String
  description : String
deriving DecidableEq

/-- The function `get_persona_culture_combinations` of src/bot_prompts.py: the
nested loops over `PERSONAS` and `CULTURES` in insertion order. -/
def get_persona_culture_combinations : List PersonaCombination :=
  (PERSONAS.map (fun p => CULTURES.map (fun c =>
    { persona := p.1,
      culture := c.1,
      persona_name := p.2.name,
      culture_name := c.2.name,
      description := p.2.description ++ " with " ++ c.2.name ++ " cultural background"
      : PersonaCombination }))).flatten

/-- An entry of the `TEXT_GENERATION_STYLES` dictionary of src/bot_prompts.py;
`temperature` and `top_p` are in hundredths. -/
structure StyleDef where
  name : String
  prompt : String
  temperature : Nat
  top_p : Nat
deriving DecidableEq

/-- The `TEXT_GENERATION_STYLES` dictionary of src/bot_prompts.py, in insertion
order. -/
def TEXT_GENERATION_STYLES : List (String × StyleDef) := [
  ("creative",
    { name := "Creative Writing",
      prompt := "Write in a creative, imaginative, and engaging style. Use vivid descriptions, interesting metaphors, and compelling narrative techniques.",
      temperature := 90, top_p := 95 }),
  ("formal",
    { name := "Formal Writing",
      prompt := "Write in a formal, professional, and structured style. Use clear language, proper grammar, and maintain an authoritative tone.",
      temperature := 60, top_p := 80 }),
  ("casual",
    { name := "Casual Writing",
      prompt := "Write in a casual, conversational, and approachable style. Use everyday language and maintain a friendly, relaxed tone.",
      temperature := 70, top_p := 90 }),
  ("academic",
    { name := "Academic Writing",
      prompt := "Write in an academic, scholarly, and analytical style. Use precise terminology, evidence-based arguments, and formal structure.",
      temperature := 50, top_p := 80 }),
  ("poetic",
    { name := "Poetic Writing",
      prompt := "Write in a poetic, artistic, and expressive style. Use literary devices, rhythm, and beautiful language to create emotional impact.",
      temperature := 85, top_p := 90 }),
  ("humorous",
    { name := "Humorous Writing",
      prompt := "Write in a humorous, witty, and entertaining style. Use clever wordplay, funny observations, and light-hearted tone.",
      temperature := 80, top_p := 90 })]

/-- Python's `TEXT_GENERATION_STYLES[key]` access guarded by membership. -/
def lookupStyle (key : String) : Option StyleDef :=
  (TEXT_GENERATION_STYLES.find? (fun p => p.1 == key)).map Prod.snd

/-- The function `get_text_generation_prompt` of src/bot_prompts.py: substitute
the default "creative" for an unknown style key, then build the f-string of
lines 250-254 (the `getD` default is unreachable after the substitution). -/
def get_text_generation_prompt (style user_prompt : String) : String :=
  let style := if (lookupStyle style).isSome then style else "creative"
  let style_info := (lookupStyle style).getD
    { name := "", prompt := "", temperature := 0, top_p := 0 }
  style_info.prompt ++ "\n\nUser Request: " ++ user_prompt
    ++ "\n\nPlease write a response that fulfills this request in the "
    ++ pyLower style_info.name ++ " style described above:"

/-! ## gemma_handler.py: the engine adapter and the orchestrators -/

/-- The distress keyword list of `GemmaHandler._respond_as_friend`. -/
def distressWords : List String := ["sad", "upset", "worried", "stressed"]

/-- The positivity keyword list of `GemmaHandler._respond_as_friend`. -/
def positiveWords : List String := ["happy", "excited", "good", "great", "awesome"]

/-- The work keyword list of `GemmaHandler._respond_as_friend`. -/
def workWords : List String := ["work", "job", "career"]

/-- The relationship keyword list of `GemmaHandler._respond_as_friend`. -/
def relationshipWords : List String := ["love", "relationship", "partner"]

/-- The method `GemmaHandler._respond_as_friend` of src/gemma_handler.py: the
message classifier used by the friend-persona fallback templates. -/
def respond_as_friend (message : String) : String :=
  if strContains message "?" then
    "That's a really interesting question!"
  else if distressWords.any (fun w => strContains (pyLower message) w) then
    "I can hear that you're going through something tough."
  else if positiveWords.any (fun w => strContains (pyLower message) w) then
    "I love hearing positive energy from you!"
  else if workWords.any (fun w => strContains (pyLower message) w) then
    "Work stuff can be really challenging sometimes."
  else if relationshipWords.any (fun w => strContains (pyLower message) w) then
    "Relationships are such an important part of life."
  else
    "I find what you're saying really interesting."

/-- The nested `persona_styles` dispatch table of
`GemmaHandler._generate_persona_response`: `persona_styles.get(persona,
{}).get(culture)` as an optional message-to-response function. -/
def persona_styles (persona culture : String) : Option (String → String) :=
  if persona == "friend" then
    if culture == "delhi" then some (fun msg =>
      "Hey! " ++ respond_as_friend msg ++ " What do you think about this? I'm here to support you!")
    else if culture == "japanese" then some (fun msg =>
      "Hello friend! " ++ respond_as_friend msg ++ " Please share more of your thoughts with me.")
    else if culture == "parisian" then some (fun msg =>
      "Bonjour mon ami! " ++ respond_as_friend msg ++ " I find this quite fascinating!")
    else if culture == "berlin" then some (fun msg =>
      "Hey there! " ++ respond_as_friend msg ++ " Let's talk about this honestly.")
    else none
  else if persona == "mentor" then
    if culture == "delhi" then some (fun msg =>
      "I see you're thinking about: '" ++ msg ++ "'. This is a great learning opportunity. What insights have you gained so far?")
    else if culture == "japanese" then some (fun msg =>
      "Thank you for sharing: '" ++ msg ++ "'. Let's explore this wisdom together mindfully.")
    else if culture == "parisian" then some (fun msg =>
      "Ah, '" ++ msg ++ "' - how intellectually stimulating! Let me guide you through this thought.")
    else if culture == "berlin" then some (fun msg =>
      "Good question about '" ++ msg ++ "'. Let's approach this systematically and learn together.")
    else none
  else if persona == "romantic" then
    if culture == "delhi" then some (fun msg =>
      "My dear, when you say '" ++ msg ++ "', it touches my heart. Tell me more about what you're feeling.")
    else if culture == "japanese" then some (fun msg =>
      "Sweetheart, '" ++ msg ++ "' shows your beautiful mind. I love how you think about things.")
    else if culture == "parisian" then some (fun msg =>
      "Mon amour, '" ++ msg ++ "' is so poetic. Share more of your beautiful thoughts with me.")
    else if culture == "berlin" then some (fun msg =>
      "My love, I appreciate you sharing '" ++ msg ++ "' with me. You always make me think.")
    else none
  else if persona == "therapist" then
    if culture == "delhi" then some (fun msg =>
      "Thank you for sharing '" ++ msg ++ "' with me. How does this make you feel? I'm here to listen.")
    else if culture == "japanese" then some (fun msg =>
      "I hear you saying '" ++ msg ++ "'. Let's explore these feelings together in this safe space.")
    else if culture == "parisian" then some (fun msg =>
      "You mentioned '" ++ msg ++ "' - that sounds important to you. What emotions are you experiencing?")
    else if culture == "berlin" then some (fun msg =>
      "When you say '" ++ msg ++ "', I want to understand. Can you tell me more about this honestly?")
    else none
  else if persona == "professional" then
    if culture == "delhi" then some (fun msg =>
      "Regarding '" ++ msg ++ "' - let's analyze this professionally. What are your objectives here?")
    else if culture == "japanese" then some (fun msg =>
      "About '" ++ msg ++ "' - I think we can work on this efficiently. What's our next step?")
    else if culture == "parisian" then some (fun msg =>
      "Concerning '" ++ msg ++ "' - this is an excellent point. How shall we proceed creatively?")
    else if culture == "berlin" then some (fun msg =>
      "About '" ++ msg ++ "' - let's be direct and solution-focused. What do you need to achieve?")
    else none
  else none

/-- The method `GemmaHandler._generate_persona_response` of src/gemma_handler.py
(the spec's `fallbackResponse`): apply the dispatch-table entry when the pair is
registered, otherwise the generic acknowledgment. The Python method also
computes `persona_context = get_persona_prompt(persona, culture)` into an
unused local, which has no effect on the result. -/
def generate_persona_response (message persona culture : String) : String :=
  match persona_styles persona culture with
  | some response_generator => response_generator message
  | none =>
    "Thank you for sharing '" ++ message
      ++ "' with me. I'd love to hear more about your thoughts on this topic!"

/-- One element of the `conversation_history` list: the caller supplies `role`
and `content` (Python reads them with `msg.get(...)` defaults). -/
structure ConversationTurn where
  role : String
  content : String
deriving DecidableEq

/-- The generation request the orchestrators hand to the engine adapter:
prompt, token budget and sampling parameters (hundredths). The remaining
`generate_response` keyword arguments (`top_k=50`, `do_sample=True`) are left
at their defaults by both call sites and are omitted. -/
structure GenRequest where
  prompt : String
  max_new_tokens : Nat
  temperature : Nat
  top_p : Nat
deriving DecidableEq

/-- The `conversation_context` accumulation loop of `GemmaHandler.chat_response`
(src/gemma_handler.py lines 115-120): the last three turns rendered as
`Role: content` lines, in order. -/
def conversation_context (history : List ConversationTurn) : String :=
  (lastN 3 history).foldl
    (fun acc msg => acc ++ pyCapitalize msg.role ++ ": " ++ msg.content ++ "\n") ""

/-- Everything of the `full_prompt` f-string of `GemmaHandler.chat_response`
before the final `User: <message>\nAssistant:` cursor. -/
def chatPromptPrefix (persona culture : String)
    (history : List ConversationTurn) : String :=
  let example_user := "I love ice cream"
  let example_assistant := generate_persona_response example_user persona culture
  "You are acting as a " ++ persona ++ " from " ++ pyTitle culture
    ++ ".\nRespond to the user in a way that reflects this persona and culture. Be warm, informal, and use local expressions if possible.\n\nExample:\nUser: "
    ++ example_user ++ "\nAssistant: " ++ example_assistant ++ "\n\n"
    ++ conversation_context history

/-- The `full_prompt` of `GemmaHandler.chat_response` (the spec's
`composeChatPrompt`). The Python method also computes `persona_prompt =
get_persona_prompt(persona, culture)` into an unused local, which does not
appear in the prompt. -/
def chat_full_prompt (message persona culture : String)
    (history : List ConversationTurn) : String :=
  chatPromptPrefix persona culture history ++ "User: " ++ message ++ "\nAssistant:"

/-- The generation request issued by `GemmaHandler.chat_response`:
`max_new_tokens=150, temperature=0.8, top_p=0.9`. -/
def chat_request (message persona culture : String)
    (history : List ConversationTurn) : GenRequest :=
  { prompt := chat_full_prompt message persona culture history,
    max_new_tokens := 150, temperature := 80, top_p := 90 }

/-- The method `GemmaHandler.chat_response` of src/gemma_handler.py, the engine
abstracted as `gen : GenRequest → Option String` (`none` is Python's `None`):
when the engine output is `None`, empty, or trims to fewer than 10 characters,
the template fallback `generate_persona_response` replaces it. -/
def chat_response (gen : GenRequest → Option String)
    (message persona culture : String) (history : List ConversationTurn) : String :=
  match gen (chat_request message persona culture history) with
  | none => generate_persona_response message persona culture
  | some response =>
    if response == "" || (pyStrip response).length < 10 then
      generate_persona_response message persona culture
    else response

/-- The local `style_prompts` dictionary of `GemmaHandler.generate_text`
(src/gemma_handler.py lines 213-219); note it is not the
`TEXT_GENERATION_STYLES` registry and has no "humorous" entry. -/
def style_prompts : List (String × String) := [
  ("creative", "Write in a creative and imaginative style:"),
  ("formal", "Write in a formal and professional style:"),
  ("casual", "Write in a casual and conversational style:"),
  ("academic", "Write in an academic and scholarly style:"),
  ("poetic", "Write in a poetic and artistic style:")]

/-- Python's `style_prompts.get(style, style_prompts["creative"])`. -/
def style_instruction (style : String) : String :=
  ((style_prompts.find? (fun p => p.1 == style)).map Prod.snd).getD
    "Write in a creative and imaginative style:"

/-- The `full_prompt` of `GemmaHandler.generate_text`. -/
def generate_text_prompt (prompt style persona culture : String) : String :=
  let example_user := "Describe your favorite dessert."
  let example_assistant := generate_persona_response example_user persona culture
  style_instruction style
    ++ ("\nYou are acting as a " ++ persona ++ " from " ++ pyTitle culture
      ++ ".\nRespond in a way that reflects this persona and culture. Be warm, informal, and use local expressions if possible.\n\nExample:\nUser: "
      ++ example_user ++ "\nAssistant: " ++ example_assistant ++ "\n\nUser: "
      ++ prompt ++ "\nAssistant:")

/-- The generation request issued by `GemmaHandler.generate_text`:
`max_new_tokens=max_tokens, temperature=0.8 if style == "creative" else 0.6`,
`top_p` left at the `generate_response` default 0.9. -/
def generate_text_request (prompt style persona culture : String)
    (max_tokens : Nat) : GenRequest :=
  { prompt := generate_text_prompt prompt style persona culture,
    max_new_tokens := max_tokens,
    temperature := if style == "creative" then 80 else 60,
    top_p := 90 }

/-- The method `GemmaHandler.generate_text` of src/gemma_handler.py, the engine
abstracted as for `chat_response`: the engine's result is returned as-is, with
no short-output fallback. -/
def generate_text (gen : GenRequest → Option String)
    (prompt style persona culture : String) (max_tokens : Nat) : Option String :=
  gen (generate_text_request prompt style persona culture max_tokens)

/-- The mutable resource state of a `GemmaHandler` instance: `model` and
`tokenizer` are `some ()` exactly when the Python attributes are non-`None`
(the loaded heavy objects themselves are opaque). -/
structure GemmaHandler where
  model_name : String
  model : Option Unit
  tokenizer : Option Unit
  device : String
deriving DecidableEq

/-- The method `GemmaHandler.is_loaded`: both resources present. -/
def is_loaded (h : GemmaHandler) : Bool :=
  h.model.isSome && h.tokenizer.isSome

/-- The method `GemmaHandler.unload_model`: each resource is dropped when
present and the attribute set to `None` (the cache-emptying and garbage
collection calls do not touch the handler's state). -/
def unload_model (h : GemmaHandler) : GemmaHandler :=
  let h := if h.model.isSome then { h with model := none } else h
  let h := if h.tokenizer.isSome then { h with tokenizer := none } else h
  h

/-- The outcome of the opaque transformer backend inside
`GemmaHandler.generate_response`: either the decoded continuation text, or an
exception raised anywhere in the `try` block. -/
inductive BackendOutcome where
  | decoded (s : String)
  | raisedError
deriving DecidableEq

/-- The fixed substitute `generate_response` returns when the decoded output is
empty or strips to fewer than 3 characters. -/
def shortOutputSubstitute : String :=
  "Hello! I'm here to chat with you. How can I help?"

/-- The fixed substitute `generate_response` returns from its `except` clause. -/
def errorSubstitute : String :=
  "I'm having trouble generating a response right now. Please try again!"

/-- The method `GemmaHandler.generate_response` of src/gemma_handler.py with
the transformer backend abstracted as a `BackendOutcome`: `None` only when a
resource is missing; an exception yields `errorSubstitute`; a decoded output
that is empty or strips to fewer than 3 characters yields
`shortOutputSubstitute`; otherwise the stripped decoded output. -/
def generate_response (h : GemmaHandler) (outcome : BackendOutcome) : Option String :=
  if !h.model.isSome || !h.tokenizer.isSome then none
  else
    match outcome with
    | .raisedError => some errorSubstitute
    | .decoded s =>
      let response := pyStrip s
      if response == "" || (pyStrip response).length < 3 then some shortOutputSubstitute
      else some response

/-! ## Shared lemmas -/

/-- String concatenation is associative (used to regroup the prompt pieces). -/
theorem strAppend_assoc : ∀ (a b c : String), a ++ b ++ c = a ++ (b ++ c)
  | ⟨a⟩, ⟨b⟩, ⟨c⟩ => congrArg String.mk (List.append_assoc a b c)

/-- The empty string is a right identity for concatenation. -/
theorem strAppend_empty : ∀ (a : String), a ++ "" = a
  | ⟨a⟩ => congrArg String.mk (List.append_nil a)

/-- The empty string is a left identity for concatenation. -/
theorem strEmpty_append (a : String) : "" ++ a = a := by
  cases a
  rfl

/-- Taking the last `n` elements twice is the same as taking them once. -/
theorem lastN_idem (n : Nat) (l : List α) : lastN n (lastN n l) = lastN n l := by
  have h : l.length - (l.length - n) - n = 0 := by omega
  simp [lastN, List.length_drop, h]

/-- Folding concatenation from an initial string prepends it to the join. -/
theorem strJoin_foldl :
    ∀ (l : List String) (init : String),
      l.foldl (fun r s => r ++ s) init = init ++ String.join l
  | [], init => (strAppend_empty init).symm
  | s :: l, init => by
    have h2 : String.join (s :: l) = s ++ String.join l := by
      show l.foldl (fun r s => r ++ s) ("" ++ s) = s ++ String.join l
      rw [strEmpty_append, strJoin_foldl l s]
    show l.foldl (fun r s => r ++ s) (init ++ s) = init ++ String.join (s :: l)
    rw [strJoin_foldl l (init ++ s), h2, strAppend_assoc]

/-- A left fold that appends `f` of each element equals the initial string
followed by the joined rendered elements. -/
theorem foldl_append_join (f : α → String) (l : List α) (init : String) :
    l.foldl (fun acc x => acc ++ f x) init = init ++ String.join (l.map f) := by
  rw [← List.foldl_map, strJoin_foldl]

/-! ## Claim theorems -/

/-- C4 (counterexample): it is not the case that every element of the
combinations catalog has a description containing both the persona's display
name and the culture's display name — already the first element (Friendly
Companion × Delhi) fails, because the description interpolates the persona's
description, not its display name. -/
theorem c4_counterexample :
    (get_persona_culture_combinations.all fun e =>
      strContains e.description e.persona_name
        && strContains e.description e.culture_name) = false := by
  decide

/-- Registry access used to state the amended C4: the description field of the
persona record for a key. -/
def personaDescription (key : String) : String :=
  ((lookupPersona key).map PersonaDef.description).getD ""

/-- C4 (amended): the combinations catalog has exactly
`|personas| * |cultures| = 5 * 4 = 20` elements, and every element's
description contains the persona's description and the culture's display name
(the persona's display name is not interpolated). -/
theorem c4_combinations_catalog :
    get_persona_culture_combinations.length = PERSONAS.length * CULTURES.length ∧
    PERSONAS.length = 5 ∧ CULTURES.length = 4 ∧
    get_persona_culture_combinations.length = 20 ∧
    (get_persona_culture_combinations.all fun e =>
      strContains e.description (personaDescription e.persona)
        && strContains e.description e.culture_name) = true := by
  exact ⟨rfl, rfl, rfl, rfl, by decide⟩

/-- C5 (counterexample): for the registered pair (friend, delhi) the fallback
response does not interpolate the literal input message — the friend templates
interpolate only the classifier fragment. -/
theorem c5_counterexample :
    strContains (generate_persona_response "xyzzy" "friend" "delhi") "xyzzy" = false := by
  decide

/-- C5 (amended): `generate_persona_response` is total over the registered
persona × culture product, each registered pair having a fixed template (halves
independent of the message): for the friend persona the template interpolates
only the selected reaction fragment — the literal message does not occur in the
result, witnessed at the message "xyzzy" for every friend pair — while every
other registered persona's template interpolates only the literal message — the
selected reaction fragment does not occur, witnessed at "xyzzy" for all sixteen
non-friend pairs; for any combination missing from the dispatch table it
returns the generic acknowledgment echoing the message verbatim. -/
theorem c5_fallback_templates (persona culture : String) :
    (persona = "friend" → culture ∈ CULTURES.map Prod.fst →
      ∃ pre post, ∀ message, generate_persona_response message persona culture
        = pre ++ respond_as_friend message ++ post) ∧
    (persona ∈ PERSONAS.map Prod.fst → persona ≠ "friend" →
      culture ∈ CULTURES.map Prod.fst →
      ∃ pre post, ∀ message, generate_persona_response message persona culture
        = pre ++ message ++ post) ∧
    (persona_styles persona culture = none → ∀ message,
      generate_persona_response message persona culture
        = "Thank you for sharing '" ++ message
            ++ "' with me. I'd love to hear more about your thoughts on this topic!") ∧
    ((CULTURES.map Prod.fst).all fun c =>
      !strContains (generate_persona_response "xyzzy" "friend" c) "xyzzy") = true ∧
    (((PERSONAS.map Prod.fst).filter (fun p => p != "friend")).all fun p =>
      (CULTURES.map Prod.fst).all fun c =>
        !strContains (generate_persona_response "xyzzy" p c)
          (respond_as_friend "xyzzy")) = true := by
  refine ⟨?_, ?_, ?_, by decide, by decide⟩
  · rintro rfl hc
    simp only [CULTURES, List.map_cons, List.map_nil, List.mem_cons,
      List.not_mem_nil, or_false] at hc
    rcases hc with rfl | rfl | rfl | rfl <;> exact ⟨_, _, fun message => rfl⟩
  · intro hp hne hc
    simp only [PERSONAS, List.map_cons, List.map_nil, List.mem_cons,
      List.not_mem_nil, or_false] at hp
    simp only [CULTURES, List.map_cons, List.map_nil, List.mem_cons,
      List.not_mem_nil, or_false] at hc
    rcases hp with rfl | rfl | rfl | rfl | rfl
    · exact absurd rfl hne
    all_goals rcases hc with rfl | rfl | rfl | rfl <;> exact ⟨_, _, fun message => rfl⟩
  · intro hn message
    simp [generate_persona_response, hn]

/-- C6: the fallback message classifier checks its lexical classes in the fixed
priority order — question mark, distress, positivity, work, relationship, else
generic — and the first matching class wins; in particular the fallback for
"Is this fun?" under (friend, delhi) contains the question fragment and neither
the positivity nor the generic fragment. -/
theorem c6_classifier_priority (message : String) :
    (strContains message "?" = true →
      respond_as_friend message = "That's a really interesting question!") ∧
    (strContains message "?" = false →
      distressWords.any (fun w => strContains (pyLower message) w) = true →
      respond_as_friend message
        = "I can hear that you're going through something tough.") ∧
    (strContains message "?" = false →
      distressWords.any (fun w => strContains (pyLower message) w) = false →
      positiveWords.any (fun w => strContains (pyLower message) w) = true →
      respond_as_friend message = "I love hearing positive energy from you!") ∧
    (strContains message "?" = false →
      distressWords.any (fun w => strContains (pyLower message) w) = false →
      positiveWords.any (fun w => strContains (pyLower message) w) = false →
      workWords.any (fun w => strContains (pyLower message) w) = true →
      respond_as_friend message = "Work stuff can be really challenging sometimes.") ∧
    (strContains message "?" = false →
      distressWords.any (fun w => strContains (pyLower message) w) = false →
      positiveWords.any (fun w => strContains (pyLower message) w) = false →
      workWords.any (fun w => strContains (pyLower message) w) = false →
      relationshipWords.any (fun w => strContains (pyLower message) w) = true →
      respond_as_friend message
        = "Relationships are such an important part of life.") ∧
    (strContains message "?" = false →
      distressWords.any (fun w => strContains (pyLower message) w) = false →
      positiveWords.any (fun w => strContains (pyLower message) w) = false →
      workWords.any (fun w => strContains (pyLower message) w) = false →
      relationshipWords.any (fun w => strContains (pyLower message) w) = false →
      respond_as_friend message = "I find what you're saying really interesting.") ∧
    strContains (generate_persona_response "Is this fun?" "friend" "delhi")
      "That's a really interesting question!" = true ∧
    strContains (generate_persona_response "Is this fun?" "friend" "delhi")
      "I love hearing positive energy from you!" = false ∧
    strContains (generate_persona_response "Is this fun?" "friend" "delhi")
      "I find what you're saying really interesting." = false := by
  refine ⟨?_, ?_, ?_, ?_, ?_, ?_, by decide, by decide, by decide⟩
  all_goals intros
  all_goals simp only [respond_as_friend, *]
  all_goals simp

/-- C6 (witness): with a question mark present, the question branch wins even
though a distress keyword also occurs in the message. -/
theorem c6_witness :
    respond_as_friend "sad?" = "That's a really interesting question!" :=
  (c6_classifier_priority "sad?").1 (by decide)

/-- C8: unloading an already-unloaded engine is a no-op rather than an error
(the second `unload_model` leaves the state of the first unchanged), and after
the second call `is_loaded` reports `false`. -/
theorem c8_unload_idempotent (h : GemmaHandler) :
    unload_model (unload_model h) = unload_model h ∧
    is_loaded (unload_model (unload_model h)) = false := by
  obtain ⟨n, m, t, d⟩ := h
  cases m <;> cases t <;> simp [unload_model, is_loaded]

/-- C1: when the engine output for the composed chat prompt is a failure or its
stripped length is below 10 characters (the empty string included),
`chat_response` returns exactly `generate_persona_response` (the spec's
`fallbackResponse`) on the same message, persona and culture; otherwise it
returns the engine output unchanged. -/
theorem c1_chat_short_output_fallback (gen : GenRequest → Option String)
    (message persona culture : String) (history : List ConversationTurn) :
    ((gen (chat_request message persona culture history) = none ∨
      ∃ s, gen (chat_request message persona culture history) = some s ∧
        (pyStrip s).length < 10) →
      chat_response gen message persona culture history
        = generate_persona_response message persona culture) ∧
    (∀ s, gen (chat_request message persona culture history) = some s →
      10 ≤ (pyStrip s).length →
      chat_response gen message persona culture history = s) := by
  constructor
  · rintro (hnone | ⟨s, hs, hlen⟩)
    · simp [chat_response, hnone]
    · simp only [chat_response, hs]
      simp [hlen]
  · intro s hs hlen
    have hne : (s == "") = false := by
      cases hse : s == ""
      · rfl
      · exfalso
        have : s = "" := eq_of_beq hse
        subst this
        simp [pyStrip] at hlen
    simp only [chat_response, hs, hne]
    simp [Nat.not_lt.mpr hlen]

/-- C1 (witness): a concrete short engine output is replaced by the template
fallback, and a concrete long one is returned unchanged. -/
theorem c1_witness :
    chat_response (fun _ => some "short") "hi" "friend" "delhi" []
      = generate_persona_response "hi" "friend" "delhi" ∧
    chat_response (fun _ => some "a sufficiently long response") "hi" "friend" "delhi" []
      = "a sufficiently long response" := by
  constructor
  · exact (c1_chat_short_output_fallback (fun _ => some "short") "hi" "friend"
      "delhi" []).1 (Or.inr ⟨"short", rfl, by decide⟩)
  · exact (c1_chat_short_output_fallback (fun _ => some "a sufficiently long response")
      "hi" "friend" "delhi" []).2 _ rfl (by decide)

set_option maxRecDepth 8192 in
/-- C2 (counterexample): for the style key "casual", `generate_text` invokes
the engine with temperature 0.60 while the style registry declares 0.70, and
the registry's instructional fragment for "casual" does not occur in the
composed prompt at all (a hard-coded internal instruction is used instead). -/
theorem c2_counterexample :
    (generate_text_request "Tell me a story" "casual" "friend" "delhi" 512).temperature = 60 ∧
    ((lookupStyle "casual").map StyleDef.temperature).getD 0 = 70 ∧
    strContains (generate_text_request "Tell me a story" "casual" "friend" "delhi" 512).prompt
      (((lookupStyle "casual").map StyleDef.prompt).getD "") = false := by
  refine ⟨rfl, by decide, by decide⟩

/-- C2 (amended): for every style key, `generate_text` prefixes the hard-coded
instruction of its internal `style_prompts` table (defaulting to the creative
instruction for keys outside that table, "humorous" included), invokes the
engine with temperature 0.8 when the key is "creative" and 0.6 otherwise —
not the registry's declared temperature — and applies no short-output
fallback: the engine's output, or its failure, is returned as-is. -/
theorem c2_generate_text_policy (gen : GenRequest → Option String)
    (prompt style persona culture : String) (max_tokens : Nat) :
    generate_text gen prompt style persona culture max_tokens
      = gen (generate_text_request prompt style persona culture max_tokens) ∧
    (generate_text_request prompt style persona culture max_tokens).temperature
      = (if style == "creative" then 80 else 60) ∧
    ∃ rest, (generate_text_request prompt style persona culture max_tokens).prompt
      = style_instruction style ++ rest := by
  refine ⟨rfl, rfl, ?_⟩
  show ∃ rest, generate_text_prompt prompt style persona culture
    = style_instruction style ++ rest
  unfold generate_text_prompt
  exact ⟨_, rfl⟩

/-- C3: an unknown persona key makes persona-prompt composition behave exactly
as the key "friend", an unknown culture key exactly as "delhi", and an unknown
style key makes style-prompt composition behave exactly as "creative"; the
lookups are total functions, so no unknown key raises an error. -/
theorem c3_unknown_keys_default (p c st : String)
    (hp : lookupPersona p = none) (hc : lookupCulture c = none)
    (hst : lookupStyle st = none) :
    (∀ culture, get_persona_prompt p culture = get_persona_prompt "friend" culture) ∧
    (∀ persona, get_persona_prompt persona c = get_persona_prompt persona "delhi") ∧
    (∀ user_prompt, get_text_generation_prompt st user_prompt
      = get_text_generation_prompt "creative" user_prompt) := by
  refine ⟨fun culture => ?_, fun persona => ?_, fun user_prompt => ?_⟩
  · simp only [get_persona_prompt, hp]
    rfl
  · simp only [get_persona_prompt, hc]
    rfl
  · simp only [get_text_generation_prompt, hst]
    rfl

/-- C3 (witness): concrete unknown keys resolve to the documented defaults. -/
theorem c3_witness :
    get_persona_prompt "bogus" "japanese" = get_persona_prompt "friend" "japanese" ∧
    get_persona_prompt "mentor" "atlantis" = get_persona_prompt "mentor" "delhi" ∧
    get_text_generation_prompt "noir" "Write a haiku"
      = get_text_generation_prompt "creative" "Write a haiku" :=
  ⟨(c3_unknown_keys_default "bogus" "atlantis" "noir" (by decide) (by decide)
      (by decide)).1 "japanese",
   (c3_unknown_keys_default "bogus" "atlantis" "noir" (by decide) (by decide)
      (by decide)).2.1 "mentor",
   (c3_unknown_keys_default "bogus" "atlantis" "noir" (by decide) (by decide)
      (by decide)).2.2 "Write a haiku"⟩

/-- C7: the composed chat prompt depends on the history only through its last
three turns, which are rendered as `Role: content` lines in chronological
order, and it always ends with the literal suffix `User: <message>\nAssistant:`
with the verbatim input message. -/
theorem c7_chat_prompt_window_and_suffix (message persona culture : String)
    (history : List ConversationTurn) :
    chat_full_prompt message persona culture history
      = chat_full_prompt message persona culture (lastN 3 history) ∧
    (lastN 3 history).length ≤ 3 ∧
    conversation_context history
      = String.join ((lastN 3 history).map
          (fun msg => pyCapitalize msg.role ++ ": " ++ msg.content ++ "\n")) ∧
    ∃ pre, chat_full_prompt message persona culture history
      = pre ++ "User: " ++ message ++ "\nAssistant:" := by
  have hctx : conversation_context (lastN 3 history) = conversation_context history := by
    unfold conversation_context
    rw [lastN_idem]
  refine ⟨?_, ?_, ?_, ⟨chatPromptPrefix persona culture history, rfl⟩⟩
  · unfold chat_full_prompt chatPromptPrefix
    rw [hctx]
  · simp only [lastN, List.length_drop]
    omega
  · have hfn : (fun (acc : String) (msg : ConversationTurn) =>
        acc ++ pyCapitalize msg.role ++ ": " ++ msg.content ++ "\n")
        = (fun acc msg =>
            acc ++ (pyCapitalize msg.role ++ ": " ++ msg.content ++ "\n")) := by
      funext acc msg
      simp only [strAppend_assoc]
    unfold conversation_context
    rw [hfn, foldl_append_join, strEmpty_append]

/-- C9: the persona-prompt composer and the template fallback generator are
deterministic pure functions — over every registered persona × culture pair,
two calls with identical arguments return identical strings. -/
theorem c9_pure_deterministic (persona culture m1 m2 : String)
    (hp : persona ∈ PERSONAS.map Prod.fst) (hc : culture ∈ CULTURES.map Prod.fst)
    (hm : m1 = m2) :
    generate_persona_response m1 persona culture
      = generate_persona_response m2 persona culture ∧
    get_persona_prompt persona culture = get_persona_prompt persona culture :=
  ⟨hm ▸ rfl, rfl⟩

/-- C9 (witness): determinism at a concrete registered pair and message. -/
theorem c9_witness :
    generate_persona_response "Namaste" "friend" "delhi"
      = generate_persona_response "Namaste" "friend" "delhi" ∧
    get_persona_prompt "friend" "delhi" = get_persona_prompt "friend" "delhi" :=
  c9_pure_deterministic "friend" "delhi" "Namaste" "Namaste" (by decide)
    (by decide) rfl

/-- C10: with both resources present, `generate_response` never returns the
failure marker: a backend exception yields the fixed trouble message and a
decoded output stripping to fewer than 3 characters yields the fixed greeting,
both of stripped length at least 10 (so neither triggers the chat-level
fallback); the failure marker arises only when the engine is not loaded. -/
theorem c10_generate_loaded_total (h : GemmaHandler) (s : String)
    (hl : is_loaded h = true) (hs : (pyStrip (pyStrip s)).length < 3) :
    (∀ outcome, generate_response h outcome ≠ none) ∧
    generate_response h .raisedError = some errorSubstitute ∧
    generate_response h (.decoded s) = some shortOutputSubstitute ∧
    10 ≤ (pyStrip errorSubstitute).length ∧
    10 ≤ (pyStrip shortOutputSubstitute).length ∧
    (∀ h2 outcome, generate_response h2 outcome = none → is_loaded h2 = false) := by
  have hm : h.model.isSome = true := by
    have := hl
    unfold is_loaded at this
    exact (Bool.and_eq_true _ _).mp this |>.1
  have ht : h.tokenizer.isSome = true := by
    have := hl
    unfold is_loaded at this
    exact (Bool.and_eq_true _ _).mp this |>.2
  refine ⟨?_, ?_, ?_, by decide, by decide, ?_⟩
  · intro outcome
    cases outcome <;> simp [generate_response, hm, ht] <;> split <;> simp
  · simp [generate_response, hm, ht]
  · simp [generate_response, hm, ht, hs]
  · intro h2 outcome hnone
    unfold is_loaded
    cases hm2 : h2.model.isSome <;> cases ht2 : h2.tokenizer.isSome <;> try rfl
    exfalso
    cases outcome <;> simp [generate_response, hm2, ht2] at hnone
    revert hnone
    split <;> simp

/-- C10 (witness): concrete outcomes on a loaded handler. -/
theorem c10_witness :
    generate_response ⟨"microsoft/DialoGPT-small", some (), some (), "cpu"⟩
      BackendOutcome.raisedError = some errorSubstitute ∧
    generate_response ⟨"microsoft/DialoGPT-small", some (), some (), "cpu"⟩
      (BackendOutcome.decoded " ok ") = some shortOutputSubstitute := by
  have h := c10_generate_loaded_total
    ⟨"microsoft/DialoGPT-small", some (), some (), "cpu"⟩ " ok "
    (by decide) (by decide)
  exact ⟨h.2.1, h.2.2.1⟩

end AuraLLM
